import Mathlib

/-!
Verification development for the dashboard data-synchronization and
strategy-control layer of the frontend repository.

The JavaScript source is shallowly embedded:

* `src/services/apiService.js` (the `APIService` static class) becomes the
  `APIService` namespace below.  The outcome of the underlying HTTP request
  is an explicit parameter of type `RawOutcome` (the environment); the
  wrapper methods are pure functions of that outcome.
* `src/components/PositionMonitor.js` (the `TradingDashboard` component)
  becomes a pure state-transformer development: component state is the
  `DashboardState` structure, `useRef` mutable cells are the `RefState`
  structure, and one run of the async `fetchData` body is the pure function
  `fetchDataBody`, parameterised by the outcomes of every network call it
  performs (`FetchOutcomes`).  Since the event loop is single threaded, a
  run of the body with a fixed mounted flag models an uninterrupted cycle.
* `src/components/AlertsPanel.js` becomes `generateAlerts` / `mergeAlerts`.

JSON values are modelled by the inductive `Json`; numbers are restricted to
integers (no claim under scrutiny involves fractional values, and the
positions code is compared via exact cross-multiplication below).  JS
truthiness is modelled by `Json.truthy`.
-/

/-- JSON values.  Numbers are modelled as integers. -/
inductive Json where
  | null : Json
  | bool : Bool → Json
  | num : Int → Json
  | str : String → Json
  | arr : List Json → Json
  | obj : List (String × Json) → Json

/-- JS truthiness of a JSON value (`null`, `false`, `0` and the empty
string are falsy; every array and object is truthy). -/
def Json.truthy : Json → Bool
  | Json.null => false
  | Json.bool b => b
  | Json.num n => n != 0
  | Json.str s => !(s.isEmpty)
  | Json.arr _ => true
  | Json.obj _ => true

/-- `a || b` on JSON values. -/
def jsOr (a b : Json) : Json := if a.truthy then a else b

/-- Property access `j.k` on an object (first binding wins, as in JSON). -/
def Json.getField : Json → String → Option Json
  | Json.obj fs, k => fs.lookup k
  | _, _ => none

/-- `response && response.success` with a boolean `success` field. -/
def Json.isSuccess (j : Json) : Bool :=
  match j.getField "success" with
  | some (Json.bool true) => true
  | _ => false

/-- The bindings an object spread `{...j}` contributes (non-objects
contribute nothing; the string corner case is out of scope). -/
def Json.fields : Json → List (String × Json)
  | Json.obj fs => fs
  | _ => []

/-- JS object spread `{...base, ...patch}`: keys of `base` in order, with
values overridden by `patch` where present, then the new keys of `patch`. -/
def spreadMerge (base patch : List (String × Json)) : List (String × Json) :=
  (base.map (fun kv =>
    match patch.lookup kv.1 with
    | some v => (kv.1, v)
    | none => kv))
  ++ patch.filter (fun kv => (base.lookup kv.1).isNone)

/-- `{...m, [k]: v}` where `m` already has pairwise distinct keys. -/
def setKey (m : List (String × Json)) (k : String) (v : Json) :
    List (String × Json) :=
  if (m.lookup k).isSome then
    m.map (fun kv => if kv.1 = k then (k, v) else kv)
  else m ++ [(k, v)]

/-- Outcome of one underlying HTTP exchange, as seen by
`APIService.request`: a 2xx response with a JSON body, a non-2xx response,
a network failure, or the 15s abort timer firing. -/
inductive RawOutcome where
  | ok : Json → RawOutcome
  | httpFailure : Nat → String → RawOutcome
  | networkFailure : String → RawOutcome
  | timedOut : RawOutcome

namespace APIService

/-- `APIService.request`: normalises the raw outcome into either the parsed
JSON body or a thrown `Error` (modelled by its message string), exactly as
the `throw` sites in `apiService.js` build them. -/
def request (raw : RawOutcome) : Except String Json :=
  match raw with
  | RawOutcome.ok body => Except.ok body
  | RawOutcome.httpFailure status body =>
      Except.error ("API Error: " ++ toString status ++ " - " ++ body)
  | RawOutcome.networkFailure msg => Except.error msg
  | RawOutcome.timedOut => Except.error "Request timed out after 15s"

/-- `getAvailableStrategies` rethrows every failure. -/
def getAvailableStrategies (raw : RawOutcome) : Except String Json :=
  request raw

/-- `getHealth` has no catch of its own. -/
def getHealth (raw : RawOutcome) : Except String Json := request raw

/-- `getAllStrategiesStatus` absorbs every failure into an empty object. -/
def getAllStrategiesStatus (raw : RawOutcome) : Except String Json :=
  match request raw with
  | Except.ok v => Except.ok v
  | Except.error _ => Except.ok (Json.obj [])

/-- `getWallet` absorbs every failure into an empty object. -/
def getWallet (raw : RawOutcome) : Except String Json :=
  match request raw with
  | Except.ok v => Except.ok v
  | Except.error _ => Except.ok (Json.obj [])

/-- `getMarketData` absorbs every failure into an empty object. -/
def getMarketData (raw : RawOutcome) : Except String Json :=
  match request raw with
  | Except.ok v => Except.ok v
  | Except.error _ => Except.ok (Json.obj [])

/-- `getPositions` absorbs every failure into an empty object. -/
def getPositions (raw : RawOutcome) : Except String Json :=
  match request raw with
  | Except.ok v => Except.ok v
  | Except.error _ => Except.ok (Json.obj [])

/-- `getTrades` absorbs every failure into `[]`. -/
def getTrades (raw : RawOutcome) : Except String Json :=
  match request raw with
  | Except.ok v => Except.ok v
  | Except.error _ => Except.ok (Json.arr [])

/-- `getTradeStats` absorbs every failure into an empty object. -/
def getTradeStats (raw : RawOutcome) : Except String Json :=
  match request raw with
  | Except.ok v => Except.ok v
  | Except.error _ => Except.ok (Json.obj [])

/-- The synthetic unhealthy object `getSystemHealth` falls back to. -/
def systemHealthFallback : Json :=
  Json.obj [("success", Json.bool false),
    ("result", Json.obj [("summary",
      Json.obj [("status", Json.str "unavailable")])])]

/-- `getSystemHealth` absorbs every failure into the synthetic object. -/
def getSystemHealth (raw : RawOutcome) : Except String Json :=
  match request raw with
  | Except.ok v => Except.ok v
  | Except.error _ => Except.ok systemHealthFallback

/-- `getSMCAnalysis` absorbs every failure into `null`. -/
def getSMCAnalysis (raw : RawOutcome) : Except String Json :=
  match request raw with
  | Except.ok v => Except.ok v
  | Except.error _ => Except.ok Json.null

/-- `startStrategy` rethrows every failure. -/
def startStrategy (raw : RawOutcome) : Except String Json := request raw

/-- `stopStrategy` rethrows every failure. -/
def stopStrategy (raw : RawOutcome) : Except String Json := request raw

/-- `getCandles` rethrows every failure. -/
def getCandles (raw : RawOutcome) : Except String Json := request raw

end APIService

/-- Whether the underlying request of a call failed. -/
def requestFailed (raw : RawOutcome) : Bool :=
  match APIService.request raw with
  | Except.ok _ => false
  | Except.error _ => true

/-- The thrown message of a failed request (junk on success). -/
def requestErrorMsg (raw : RawOutcome) : String :=
  match APIService.request raw with
  | Except.ok _ => ""
  | Except.error m => m

/-! ## TradingDashboard state (PositionMonitor.js) -/

/-- The tracked-symbol constant of `PositionMonitor.js`. -/
def TRACKED_SYMBOLS : List String := ["BTCUSD", "ETHUSD", "XRPUSD", "SOLUSD"]

/-- The polling interval constants of `PositionMonitor.js` (milliseconds). -/
def UPDATE_INTERVALS_market : Nat := 5000

/-- The connection status values the component writes. -/
inductive ConnStatus where
  | disconnected : ConnStatus
  | connecting : ConnStatus
  | connected : ConnStatus
  | error : ConnStatus
  deriving DecidableEq, Repr

/-- The `useState` slices of `TradingDashboard` that the data
synchronizer touches.  `accountData` is split into its two fields. -/
structure DashboardState where
  availableStrategies : List String
  strategies : Json
  marketData : List (String × Json)
  accountBalance : Int
  wallet : Json
  positionData : List (String × Json)
  tradeData : Json
  tradeStats : Json
  systemHealth : Json
  loading : Bool
  errorMsg : Option String
  lastUpdate : Option Nat
  connectionStatus : ConnStatus
  retryCount : Nat

/-- The initial `useState` values of the component. -/
def initialDashboardState : DashboardState where
  availableStrategies := []
  strategies := Json.obj []
  marketData := []
  accountBalance := 0
  wallet := Json.arr []
  positionData := []
  tradeData := Json.arr []
  tradeStats := Json.obj []
  systemHealth := Json.obj []
  loading := true
  errorMsg := none
  lastUpdate := none
  connectionStatus := ConnStatus.disconnected
  retryCount := 0

/-- The `useRef` cells that guard the sync cycle. -/
structure RefState where
  isMounted : Bool
  fetchInProgress : Bool

/-- The outcomes of every network call one `fetchData` run performs, plus
the clock value used for `new Date()`.  Per-symbol calls are functions of
the symbol. -/
structure FetchOutcomes where
  availableStrategiesResp : RawOutcome
  healthResp : RawOutcome
  strategiesStatusResp : RawOutcome
  walletResp : RawOutcome
  marketResp : String → RawOutcome
  positionsResp : String → RawOutcome
  tradesResp : RawOutcome
  tradeStatsResp : RawOutcome
  systemHealthResp : RawOutcome
  now : Nat

/-- `safeSetState`: every state write is routed through this guard, which
checks the `isMounted` ref before applying the setter. -/
def safeSetState (mounted : Bool) (write : DashboardState → DashboardState)
    (s : DashboardState) : DashboardState :=
  if mounted then write s else s

/-- The strategy-name lists of a successful `/strategies/available`
response body (`result.built_in ++ result.discovered ++
result.current_directory`); `none` when a field is missing or not an
array, in which case the JS spread throws inside the local `try`. -/
def extractAllStrategies (j : Json) : Option (List String) :=
  match j.getField "result" with
  | none => none
  | some r =>
    match r.getField "built_in", r.getField "discovered",
        r.getField "current_directory" with
    | some (Json.arr b), some (Json.arr d), some (Json.arr c) =>
        some ((b ++ d ++ c).filterMap (fun x =>
          match x with
          | Json.str s => some s
          | _ => none))
    | _, _, _ => none

/-- `fetchAvailableStrategies`: returns `true` and stores the combined
list on a successful response, otherwise stores an error message and
returns `false` (the local `catch`). -/
def fetchAvailableStrategies (mounted : Bool) (raw : RawOutcome)
    (s : DashboardState) : Bool × DashboardState :=
  match APIService.getAvailableStrategies raw with
  | Except.error msg =>
      let m := "Failed to load available strategies: " ++ msg
      (false, safeSetState mounted (fun st => { st with errorMsg := some m }) s)
  | Except.ok j =>
      if j.isSuccess then
        match extractAllStrategies j with
        | some l =>
            (true, safeSetState mounted (fun st =>
              { st with availableStrategies := l }) s)
        | none =>
            let m := "Failed to load available strategies: TypeError"
            (false, safeSetState mounted (fun st =>
              { st with errorMsg := some m }) s)
      else
        let m := "Failed to load available strategies: " ++
          "Invalid response from strategies endpoint"
        (false, safeSetState mounted (fun st =>
          { st with errorMsg := some m }) s)

/-- Whether `fetchAvailableStrategies` reports success, as a function of
the response alone. -/
def availableStrategiesOk (raw : RawOutcome) : Bool :=
  match APIService.getAvailableStrategies raw with
  | Except.error _ => false
  | Except.ok j => j.isSuccess && (extractAllStrategies j).isSome

/-- `healthData.account_balance || 0`. -/
def healthBalance (h : Json) : Int :=
  match h.getField "account_balance" with
  | some (Json.num n) => n
  | _ => 0

/-- The value stored into `strategies` when the all-strategy status
settled result is processed (`strategiesResult.value || ` empty object on
fulfilment, empty object on rejection). -/
def strategiesSlice (raw : RawOutcome) : Json :=
  match APIService.getAllStrategiesStatus raw with
  | Except.ok v => jsOr v (Json.obj [])
  | Except.error _ => Json.obj []

/-- Processing of the all-strategy status settled result inside
`fetchData` (lines 1078 to 1085). -/
def processStrategiesResult (mounted : Bool) (raw : RawOutcome)
    (s : DashboardState) : DashboardState :=
  match APIService.getAllStrategiesStatus raw with
  | Except.ok v =>
      safeSetState mounted (fun st =>
        { st with strategies := jsOr v (Json.obj []) }) s
  | Except.error _ =>
      safeSetState mounted (fun st =>
        { st with strategies := Json.obj [] }) s

/-- The value stored into `wallet` when the wallet settled result is
fulfilled (`walletResult.value || []`); on rejection the slice is not
written. -/
def walletSlice (raw : RawOutcome) : Json :=
  match APIService.getWallet raw with
  | Except.ok v => jsOr v (Json.arr [])
  | Except.error _ => Json.arr []

/-- Processing of the wallet settled result inside `fetchData`
(lines 1088 to 1097): the rejected branch only logs a warning. -/
def processWalletResult (mounted : Bool) (raw : RawOutcome)
    (s : DashboardState) : DashboardState :=
  match APIService.getWallet raw with
  | Except.ok v =>
      safeSetState mounted (fun st =>
        { st with wallet := jsOr v (Json.arr []) }) s
  | Except.error _ => s

/-- One per-symbol market promise of the batch (lines 1101 to 1113):
an early unmounted return yields an empty snapshot, a rejected fetch is
caught into an empty snapshot, and a fulfilled value is defaulted with
`data || ` empty object. -/
def marketFetchResult (mounted : Bool) (raw : RawOutcome) : Json :=
  if mounted = false then Json.obj []
  else
    match APIService.getMarketData raw with
    | Except.ok v => jsOr v (Json.obj [])
    | Except.error _ => Json.obj []

/-- The `newMarketData` object built from the settled batch, keyed by
tracked symbol. -/
def marketSlice (mounted : Bool) (resp : String → RawOutcome) :
    List (String × Json) :=
  TRACKED_SYMBOLS.map (fun sym => (sym, marketFetchResult mounted (resp sym)))

/-- `fetchPositionData` (lines 989 to 1005): per-symbol failures are
caught into an empty snapshot, and the whole map replaces the slice. -/
def fetchPositionData (mounted : Bool) (resp : String → RawOutcome)
    (s : DashboardState) : DashboardState :=
  let positionResponse := TRACKED_SYMBOLS.map (fun sym =>
    (sym,
      match APIService.getPositions (resp sym) with
      | Except.ok v => v
      | Except.error _ => Json.obj []))
  safeSetState mounted (fun st => { st with positionData := positionResponse }) s

/-- `fetchTradeData` (lines 1008 to 1019): both calls together, a failure
of either is caught with a log only. -/
def fetchTradeData (mounted : Bool) (tradesRaw tradeStatsRaw : RawOutcome)
    (s : DashboardState) : DashboardState :=
  match APIService.getTrades tradesRaw,
      APIService.getTradeStats tradeStatsRaw with
  | Except.ok trs, Except.ok sts =>
      let s := safeSetState mounted (fun st =>
        { st with tradeData := jsOr trs (Json.arr []) }) s
      safeSetState mounted (fun st =>
        { st with tradeStats := jsOr sts (Json.obj []) }) s
  | _, _ => s

/-- `fetchSystemHealth` (lines 1022 to 1029). -/
def fetchSystemHealth (mounted : Bool) (raw : RawOutcome)
    (s : DashboardState) : DashboardState :=
  match APIService.getSystemHealth raw with
  | Except.ok v =>
      safeSetState mounted (fun st =>
        { st with systemHealth := jsOr v (Json.obj []) }) s
  | Except.error _ => s

/-- Result of one run of the `fetchData` try/catch body: the final state
and whether the `catch` block ran (the cycle aborted). -/
structure CycleResult where
  state : DashboardState
  aborted : Bool

/-- The `catch` block of `fetchData` (lines 1138 to 1142). -/
def catchBlock (mounted : Bool) (msg : String) (s : DashboardState) :
    CycleResult :=
  let s := safeSetState mounted (fun st => { st with errorMsg := some msg }) s
  let s := safeSetState mounted (fun st =>
    { st with connectionStatus := ConnStatus.error }) s
  let s := safeSetState mounted (fun st =>
    { st with retryCount := st.retryCount + 1 }) s
  { state := s, aborted := true }

/-- The part of the `fetchData` body after a fulfilled health check
(lines 1065 to 1136). -/
def afterHealthOk (mounted : Bool) (o : FetchOutcomes) (h : Json)
    (s : DashboardState) : CycleResult :=
  let s := safeSetState mounted (fun st =>
    { st with connectionStatus := ConnStatus.connected }) s
  let s := safeSetState mounted (fun st =>
    { st with accountBalance := healthBalance h }) s
  let s := processStrategiesResult mounted o.strategiesStatusResp s
  let s := processWalletResult mounted o.walletResp s
  let mr := marketSlice mounted o.marketResp
  if mounted = false then { state := s, aborted := false }
  else
    let s := safeSetState mounted (fun st => { st with marketData := mr }) s
    let s := fetchPositionData mounted o.positionsResp s
    let s := fetchTradeData mounted o.tradesResp o.tradeStatsResp s
    let s := fetchSystemHealth mounted o.systemHealthResp s
    let s := safeSetState mounted (fun st =>
      { st with lastUpdate := some o.now }) s
    let s := safeSetState mounted (fun st => { st with retryCount := 0 }) s
    { state := s, aborted := false }

/-- The try/catch body of `fetchData` (lines 1039 to 1142), for a run in
which the mounted flag stays constant (the event loop is single threaded
and the claims below concern uninterrupted cycles). -/
def fetchDataBody (mounted : Bool) (o : FetchOutcomes)
    (s0 : DashboardState) : CycleResult :=
  let s := safeSetState mounted (fun st => { st with errorMsg := none }) s0
  let s := safeSetState mounted (fun st =>
    { st with connectionStatus := ConnStatus.connecting }) s
  let pr := fetchAvailableStrategies mounted o.availableStrategiesResp s
  if pr.1 = false then
    catchBlock mounted "Failed to load available strategies" pr.2
  else
    if mounted = false then { state := pr.2, aborted := false }
    else
      match APIService.getHealth o.healthResp with
      | Except.error msg =>
          catchBlock mounted ("Health check failed: " ++ msg) pr.2
      | Except.ok h => afterHealthOk mounted o h pr.2

/-- `fetchData` (lines 1032 to 1148): the non-reentrant guard, the body,
and the `finally` block that drops the loading flag and clears the
in-progress ref. -/
def fetchData (r : RefState) (o : FetchOutcomes) (s : DashboardState) :
    RefState × DashboardState :=
  if !r.isMounted || r.fetchInProgress then (r, s)
  else
    let res := fetchDataBody r.isMounted o s
    let s1 := safeSetState r.isMounted (fun st => { st with loading := false })
      res.state
    ({ r with fetchInProgress := false }, s1)

/-- `handleRetry` (lines 1214 to 1221): the delay scheduled before the
next `fetchData`, as a function of the current `retryCount`. -/
def handleRetryDelay (retryCount : Nat) : Nat :=
  min (1000 * 2 ^ retryCount) 10000

/-- `n` consecutive `fetchData` cycles with the same outcomes. -/
def iterateCycles (o : FetchOutcomes) : Nat → DashboardState → DashboardState
  | 0, s => s
  | n + 1, s => iterateCycles o n (fetchDataBody true o s).state

/-- Whether a cycle with outcomes `o` fails: one of the two mandatory
calls (strategy list, health check) fails. -/
def cycleFails (o : FetchOutcomes) : Bool :=
  !(availableStrategiesOk o.availableStrategiesResp) ||
    requestFailed o.healthResp

/-! ## Non-reentrancy trace model (the `fetchInProgress` guard)

`fetchData` is async: a cycle is *active* from the moment the guard passes
(and sets `fetchInProgress.current = true`) until its `finally` block runs
(`fetchInProgress.current = false`).  On the single-threaded event loop
the only observable interleavings are whole invocations of the guard and
whole `finally` blocks, so the guard discipline is modelled as a step
relation over those two events. -/

/-- Events of the guard discipline: an invocation of `fetchData`
(running its synchronous guard), or the `finally` block of the active
cycle finishing with the given outcome. -/
inductive SyncEvent where
  | invoke : SyncEvent
  | complete : Bool → SyncEvent

/-- Abstract guard state: the `fetchInProgress` ref plus a ghost counter
of currently active cycles. -/
structure SyncState where
  fetchInProgress : Bool
  activeCycles : Nat
  deriving DecidableEq, Repr

/-- One event step.  `invoke` is a no-op when a cycle is active (the
guard returns immediately: nothing is queued); `complete` runs the
`finally` block, which clears the flag whether the body succeeded or
threw. -/
def syncStep (st : SyncState) : SyncEvent → SyncState
  | SyncEvent.invoke =>
      if st.fetchInProgress then st
      else { fetchInProgress := true, activeCycles := st.activeCycles + 1 }
  | SyncEvent.complete _ =>
      if st.fetchInProgress then
        { fetchInProgress := false, activeCycles := st.activeCycles - 1 }
      else st

/-- The guard state after a sequence of events, from the idle initial
state. -/
def syncRun (evs : List SyncEvent) : SyncState :=
  evs.foldl syncStep { fetchInProgress := false, activeCycles := 0 }

/-! ## WebSocket channel handler (lines 1724 to 1767) -/

/-- One live-push channel as created by `connectWebSocket`: the symbol
captured by the effect closure, and whether the channel has been
logically closed (its cleanup ran on a symbol switch or unmount). -/
structure WsChannel where
  capturedSymbol : String
  logicallyClosed : Bool

/-- The `onmessage` handler (lines 1734 to 1744): parse the frame
(`JSON.parse` is modelled by its outcome, `none` for a malformed frame,
which is logged and dropped), then patch the captured symbol entry of
`marketData` with the shallow spread merge.  The handler consults no
generation or closure state. -/
def wsOnMessage (ch : WsChannel) (parsed : Option Json)
    (marketData : List (String × Json)) : List (String × Json) :=
  match parsed with
  | none => marketData
  | some data =>
      let prevSnap :=
        match marketData.lookup ch.capturedSymbol with
        | some j => j
        | none => Json.obj []
      setKey marketData ch.capturedSymbol
        (Json.obj (spreadMerge prevSnap.fields data.fields))

/-- The `onclose` handler (lines 1746 to 1750) schedules a reconnect of
the same closure after this fixed delay, with no liveness or closure
check. -/
def wsOnCloseReconnectDelayMs : Nat := 5000

/-! ## Strategy control handlers (lines 1152 to 1205) -/

/-- The observable effect of one `handleStartStrategy` or
`handleStopStrategy` invocation: the value returned to the caller, the
delay of the scheduled `fetchData` refresh (none when no refresh is
scheduled), and the bump of the alerts counter. -/
structure ControlEffect where
  returned : Json
  refreshDelayMs : Option Nat
  alertsCountDelta : Nat

/-- The fallback return value, used when the response body is falsy. -/
def noResponseResult : Json :=
  Json.obj [("success", Json.bool false),
    ("message", Json.str "No response from server")]

/-- `config.strategy_name || selectedStrategyType` merged over the
config object (lines 1157 to 1160). -/
def finalStrategyConfig (config : List (String × Json))
    (selectedStrategyType : String) : List (String × Json) :=
  let name :=
    match config.lookup "strategy_name" with
    | some v => jsOr v (Json.str selectedStrategyType)
    | none => Json.str selectedStrategyType
  spreadMerge config [("strategy_name", name)]

/-- `handleStartStrategy` (lines 1152 to 1181).  On a truthy response
with `success` true and a mounted component, a `fetchData` run is
scheduled after a fixed 1000 ms delay and the alerts counter is bumped;
the caught-error branch returns a synthetic failure object built from the
error message.  No retry of any kind is scheduled. -/
def handleStartStrategy (mounted : Bool) (resp : RawOutcome) : ControlEffect :=
  match APIService.startStrategy resp with
  | Except.ok result =>
      if result.truthy && result.isSuccess && mounted then
        { returned := jsOr result noResponseResult,
          refreshDelayMs := some 1000, alertsCountDelta := 1 }
      else
        { returned := jsOr result noResponseResult,
          refreshDelayMs := none, alertsCountDelta := 0 }
  | Except.error msg =>
      { returned := Json.obj [("success", Json.bool false),
          ("message", Json.str msg)],
        refreshDelayMs := none, alertsCountDelta := 0 }

/-- `handleStopStrategy` (lines 1183 to 1205), the symmetric contract. -/
def handleStopStrategy (mounted : Bool) (resp : RawOutcome) : ControlEffect :=
  match APIService.stopStrategy resp with
  | Except.ok result =>
      if result.truthy && result.isSuccess && mounted then
        { returned := jsOr result noResponseResult,
          refreshDelayMs := some 1000, alertsCountDelta := 1 }
      else
        { returned := jsOr result noResponseResult,
          refreshDelayMs := none, alertsCountDelta := 0 }
  | Except.error msg =>
      { returned := Json.obj [("success", Json.bool false),
          ("message", Json.str msg)],
        refreshDelayMs := none, alertsCountDelta := 0 }

/-! ## AlertsPanel (AlertsPanel.js) -/

/-- One alert entry. -/
structure Alert where
  id : String
  type : String
  symbol : String
  title : String
  message : String
  timestamp : Nat
  priority : String
  deriving DecidableEq, Repr

/-- The strategy-status fields the alert rules read.  `start_time` is the
parsed `Date` value in milliseconds (`none` when absent or unparseable;
the JS truthiness test on the raw string is folded into the option). -/
structure StrategyStatus where
  running : Bool
  error : Option String
  start_time : Option Nat

/-- The position fields the alert rules read.  The numeric fields are
restricted to integers; the threshold comparisons below are the exact
cross-multiplied forms of `pnl / margin * 100 > 50` and `< -20`. -/
structure Position where
  symbol : String
  unrealized_pnl : Int
  margin : Int

/-- Milliseconds per hour. -/
def hourMs : Nat := 3600000

/-- Milliseconds per day (the 24 h alert retention window). -/
def dayMs : Nat := 86400000

/-- Percentage with one decimal, rendered from the exact tenths value
(display only; `toFixed` rounding is approximated by truncation). -/
def pctString (tenths : Int) : String :=
  toString (tenths / 10) ++ "." ++ toString ((tenths % 10).natAbs)

/-- The strategy alert rules (AlertsPanel.js lines 14 to 47) for one
symbol entry. -/
def strategyAlertsFor (currentTime : Nat) (sym : String)
    (st : StrategyStatus) : List Alert :=
  if st.running then
    (match st.error with
     | some m =>
        if m.isEmpty then []
        else [{ id := sym ++ "-error", type := "error", symbol := sym,
                title := "Strategy Error", message := m,
                timestamp := currentTime, priority := "high" }]
     | none => []) ++
    (match st.start_time with
     | some startTime =>
        if 24 * hourMs < currentTime - startTime then
          [{ id := sym ++ "-longtime", type := "warning", symbol := sym,
             title := "Long Running Strategy",
             message := "Strategy running for " ++
               toString ((currentTime - startTime) / hourMs) ++
               "h without trades",
             timestamp := currentTime, priority := "low" }]
        else []
     | none => [])
  else []

/-- The position alert rules (AlertsPanel.js lines 50 to 82) for the
position at index `idx`. -/
def positionAlertsFor (currentTime : Nat) (idx : Nat) (p : Position) :
    List Alert :=
  if 0 < p.margin then
    if 50 * p.margin < p.unrealized_pnl * 100 then
      [{ id := "pos-" ++ toString idx ++ "-profit", type := "success",
         symbol := p.symbol, title := "High Profit Position",
         message := "Position up " ++
           pctString (p.unrealized_pnl * 1000 / p.margin) ++
           "% - Consider taking profits",
         timestamp := currentTime, priority := "medium" }]
    else if p.unrealized_pnl * 100 < -20 * p.margin then
      [{ id := "pos-" ++ toString idx ++ "-loss", type := "warning",
         symbol := p.symbol, title := "Position At Loss",
         message := "Position down " ++
           pctString ((-(p.unrealized_pnl * 1000)) / p.margin) ++
           "% - Monitor closely",
         timestamp := currentTime, priority := "high" }]
    else []
  else []

/-- `newAlerts`, built by the effect body (AlertsPanel.js lines 9 to 82):
strategy rules over the status object entries, then position rules over
the indexed positions. -/
def generateAlerts (strategies : List (String × StrategyStatus))
    (positions : List Position) (currentTime : Nat) : List Alert :=
  (strategies.flatMap (fun kv => strategyAlertsFor currentTime kv.1 kv.2)) ++
    (positions.enum.flatMap (fun ip =>
      positionAlertsFor currentTime ip.1 ip.2))

/-- The merge step of the `setAlerts` updater (AlertsPanel.js lines 84 to
96): drop new alerts whose id already exists, append, keep only the last
24 hours, sort newest first. -/
def mergeAlerts (prevAlerts newAlerts : List Alert) (currentTime : Nat) :
    List Alert :=
  let existingIds := prevAlerts.map (fun a => a.id)
  let uniqueNewAlerts :=
    newAlerts.filter (fun a => !(existingIds.contains a.id))
  let dayAgo := currentTime - dayMs
  ((prevAlerts ++ uniqueNewAlerts).filter
      (fun a => dayAgo < a.timestamp)).mergeSort
    (fun a b => b.timestamp ≤ a.timestamp)

/-- One full derivation pass of the panel: generate, then merge. -/
def deriveAlerts (strategies : List (String × StrategyStatus))
    (positions : List Position) (prevAlerts : List Alert)
    (currentTime : Nat) : List Alert :=
  mergeAlerts prevAlerts (generateAlerts strategies positions currentTime)
    currentTime

/-! ## Helper definitions and lemmas -/

/-- The strategy list stored by a successful `fetchAvailableStrategies`
(junk on failure). -/
def extractedStrategies (raw : RawOutcome) : List String :=
  match APIService.getAvailableStrategies raw with
  | Except.error _ => []
  | Except.ok j =>
    match extractAllStrategies j with
    | some l => l
    | none => []

/-- The error message stored by a failing `fetchAvailableStrategies`
(junk on success). -/
def stratFailMsg (raw : RawOutcome) : String :=
  match APIService.getAvailableStrategies raw with
  | Except.error msg => "Failed to load available strategies: " ++ msg
  | Except.ok j =>
    if j.isSuccess then "Failed to load available strategies: TypeError"
    else "Failed to load available strategies: " ++
      "Invalid response from strategies endpoint"

theorem fetchAvailableStrategies_eq (raw : RawOutcome) (s : DashboardState) :
    fetchAvailableStrategies true raw s =
      (availableStrategiesOk raw,
        if availableStrategiesOk raw then
          { s with availableStrategies := extractedStrategies raw }
        else { s with errorMsg := some (stratFailMsg raw) }) := by
  unfold fetchAvailableStrategies availableStrategiesOk extractedStrategies
    stratFailMsg safeSetState
  cases hr : APIService.getAvailableStrategies raw with
  | error m => simp
  | ok j =>
    by_cases hs : j.isSuccess
    · cases hx : extractAllStrategies j with
      | some l => simp [hs, hx]
      | none => simp [hs, hx]
    · simp [hs]

/-- The per-symbol position map written by `fetchPositionData`. -/
def positionsSlice (resp : String → RawOutcome) : List (String × Json) :=
  TRACKED_SYMBOLS.map (fun sym =>
    (sym,
      match APIService.getPositions (resp sym) with
      | Except.ok v => v
      | Except.error _ => Json.obj []))

/-- The trade history value written by `fetchTradeData`. -/
def tradesSlice (raw : RawOutcome) : Json :=
  match APIService.getTrades raw with
  | Except.ok v => jsOr v (Json.arr [])
  | Except.error _ => Json.arr []

/-- The trade stats value written by `fetchTradeData`. -/
def tradeStatsSlice (raw : RawOutcome) : Json :=
  match APIService.getTradeStats raw with
  | Except.ok v => jsOr v (Json.obj [])
  | Except.error _ => Json.obj []

/-- The system health value written by `fetchSystemHealth`. -/
def systemHealthSlice (raw : RawOutcome) : Json :=
  match APIService.getSystemHealth raw with
  | Except.ok v => jsOr v (Json.obj [])
  | Except.error _ => Json.obj []

theorem getAllStrategiesStatus_never_errors (raw : RawOutcome) :
    ∃ v, APIService.getAllStrategiesStatus raw = Except.ok v := by
  cases raw <;> exact ⟨_, rfl⟩

theorem getWallet_never_errors (raw : RawOutcome) :
    ∃ v, APIService.getWallet raw = Except.ok v := by
  cases raw <;> exact ⟨_, rfl⟩

theorem getTrades_never_errors (raw : RawOutcome) :
    ∃ v, APIService.getTrades raw = Except.ok v := by
  cases raw <;> exact ⟨_, rfl⟩

theorem getTradeStats_never_errors (raw : RawOutcome) :
    ∃ v, APIService.getTradeStats raw = Except.ok v := by
  cases raw <;> exact ⟨_, rfl⟩

theorem getSystemHealth_never_errors (raw : RawOutcome) :
    ∃ v, APIService.getSystemHealth raw = Except.ok v := by
  cases raw <;> exact ⟨_, rfl⟩

theorem processStrategiesResult_true (raw : RawOutcome) (s : DashboardState) :
    processStrategiesResult true raw s =
      { s with strategies := strategiesSlice raw } := by
  unfold processStrategiesResult strategiesSlice safeSetState
  obtain ⟨v, hv⟩ := getAllStrategiesStatus_never_errors raw
  rw [hv]
  simp

theorem processWalletResult_true (raw : RawOutcome) (s : DashboardState) :
    processWalletResult true raw s = { s with wallet := walletSlice raw } := by
  unfold processWalletResult walletSlice safeSetState
  obtain ⟨v, hv⟩ := getWallet_never_errors raw
  rw [hv]
  simp

theorem fetchPositionData_true (resp : String → RawOutcome)
    (s : DashboardState) :
    fetchPositionData true resp s =
      { s with positionData := positionsSlice resp } := by
  unfold fetchPositionData positionsSlice safeSetState
  simp

theorem fetchTradeData_true (tr ts : RawOutcome) (s : DashboardState) :
    fetchTradeData true tr ts s =
      { s with tradeData := tradesSlice tr,
               tradeStats := tradeStatsSlice ts } := by
  unfold fetchTradeData tradesSlice tradeStatsSlice safeSetState
  obtain ⟨v, hv⟩ := getTrades_never_errors tr
  obtain ⟨w, hw⟩ := getTradeStats_never_errors ts
  rw [hv, hw]
  simp

theorem fetchSystemHealth_true (raw : RawOutcome) (s : DashboardState) :
    fetchSystemHealth true raw s =
      { s with systemHealth := systemHealthSlice raw } := by
  unfold fetchSystemHealth systemHealthSlice safeSetState
  obtain ⟨v, hv⟩ := getSystemHealth_never_errors raw
  rw [hv]
  simp

/-- Normal form of an uninterrupted cycle whose strategy-list fetch
fails: the catch block runs on the connecting state. -/
theorem fetchDataBody_stratFail (o : FetchOutcomes) (s : DashboardState)
    (hstrat : availableStrategiesOk o.availableStrategiesResp = false) :
    fetchDataBody true o s =
      { state := { s with
          errorMsg := some "Failed to load available strategies",
          connectionStatus := ConnStatus.error,
          retryCount := s.retryCount + 1 },
        aborted := true } := by
  unfold fetchDataBody catchBlock
  simp [fetchAvailableStrategies_eq, hstrat, safeSetState]

/-- Normal form of an uninterrupted cycle whose health check fails. -/
theorem fetchDataBody_healthFail (o : FetchOutcomes) (s : DashboardState)
    (hstrat : availableStrategiesOk o.availableStrategiesResp = true)
    (hh : requestFailed o.healthResp = true) :
    fetchDataBody true o s =
      { state := { s with
          availableStrategies :=
            extractedStrategies o.availableStrategiesResp,
          errorMsg :=
            some ("Health check failed: " ++ requestErrorMsg o.healthResp),
          connectionStatus := ConnStatus.error,
          retryCount := s.retryCount + 1 },
        aborted := true } := by
  unfold fetchDataBody catchBlock
  unfold requestFailed requestErrorMsg at *
  cases hr : o.healthResp with
  | ok b => rw [hr] at hh; simp [APIService.request] at hh
  | httpFailure st b =>
      simp [fetchAvailableStrategies_eq, hr, hstrat, safeSetState,
        APIService.getHealth, APIService.request]
  | networkFailure m =>
      simp [fetchAvailableStrategies_eq, hr, hstrat, safeSetState,
        APIService.getHealth, APIService.request]
  | timedOut =>
      simp [fetchAvailableStrategies_eq, hr, hstrat, safeSetState,
        APIService.getHealth, APIService.request]

/-- Normal form of an uninterrupted cycle whose two mandatory calls both
succeed: the cycle completes with every slice replaced, whatever the
other outcomes were. -/
theorem fetchDataBody_success (o : FetchOutcomes) (s : DashboardState)
    (h : Json)
    (hstrat : availableStrategiesOk o.availableStrategiesResp = true)
    (hh : o.healthResp = RawOutcome.ok h) :
    fetchDataBody true o s =
      { state := { s with
          errorMsg := none,
          availableStrategies :=
            extractedStrategies o.availableStrategiesResp,
          connectionStatus := ConnStatus.connected,
          accountBalance := healthBalance h,
          strategies := strategiesSlice o.strategiesStatusResp,
          wallet := walletSlice o.walletResp,
          marketData := marketSlice true o.marketResp,
          positionData := positionsSlice o.positionsResp,
          tradeData := tradesSlice o.tradesResp,
          tradeStats := tradeStatsSlice o.tradeStatsResp,
          systemHealth := systemHealthSlice o.systemHealthResp,
          lastUpdate := some o.now,
          retryCount := 0 },
        aborted := false } := by
  unfold fetchDataBody afterHealthOk
  simp [fetchAvailableStrategies_eq, hstrat, hh, safeSetState,
    APIService.getHealth, APIService.request,
    processStrategiesResult_true, processWalletResult_true,
    fetchPositionData_true, fetchTradeData_true, fetchSystemHealth_true]

theorem cycleFails_true_cases (o : FetchOutcomes)
    (h : cycleFails o = true) :
    availableStrategiesOk o.availableStrategiesResp = false ∨
      requestFailed o.healthResp = true := by
  unfold cycleFails at h
  rcases Bool.or_eq_true_iff.mp h with h1 | h2
  · exact Or.inl (by simpa using h1)
  · exact Or.inr h2

theorem cycleFails_false_cases (o : FetchOutcomes)
    (h : cycleFails o = false) :
    availableStrategiesOk o.availableStrategiesResp = true ∧
      ∃ b, o.healthResp = RawOutcome.ok b := by
  unfold cycleFails at h
  rcases Bool.or_eq_false_iff.mp h with ⟨h1, h2⟩
  refine ⟨by simpa using h1, ?_⟩
  cases hr : o.healthResp with
  | ok b => exact ⟨b, rfl⟩
  | httpFailure st b => rw [hr] at h2; simp [requestFailed, APIService.request] at h2
  | networkFailure m => rw [hr] at h2; simp [requestFailed, APIService.request] at h2
  | timedOut => rw [hr] at h2; simp [requestFailed, APIService.request] at h2

theorem strategiesSlice_failed (raw : RawOutcome)
    (h : requestFailed raw = true) : strategiesSlice raw = Json.obj [] := by
  cases raw with
  | ok b => simp [requestFailed, APIService.request] at h
  | httpFailure st b => rfl
  | networkFailure m => rfl
  | timedOut => rfl

theorem walletSlice_failed (raw : RawOutcome)
    (h : requestFailed raw = true) : walletSlice raw = Json.obj [] := by
  cases raw with
  | ok b => simp [requestFailed, APIService.request] at h
  | httpFailure st b => rfl
  | networkFailure m => rfl
  | timedOut => rfl

theorem marketFetchResult_failed (raw : RawOutcome)
    (h : requestFailed raw = true) :
    marketFetchResult true raw = Json.obj [] := by
  cases raw with
  | ok b => simp [requestFailed, APIService.request] at h
  | httpFailure st b => rfl
  | networkFailure m => rfl
  | timedOut => rfl

theorem marketFetchResult_ok (v : Json) (hv : v.truthy = true) :
    marketFetchResult true (RawOutcome.ok v) = v := by
  simp [marketFetchResult, APIService.getMarketData, APIService.request,
    jsOr, hv]

theorem lookup_map_self {β : Type} (f : String → β) (l : List String)
    (sym : String) (h : sym ∈ l) :
    (l.map (fun x => (x, f x))).lookup sym = some (f sym) := by
  induction l with
  | nil => simp at h
  | cons a t ih =>
    rcases List.mem_cons.mp h with h1 | h2
    · subst h1
      simp [List.lookup]
    · by_cases hs : sym = a
      · subst hs
        simp [List.lookup]
      · have hb : (sym == a) = false := beq_eq_false_iff_ne.mpr hs
        simp [List.lookup, hb]
        exact ih h2

theorem truthy_of_isSuccess (j : Json) (h : j.isSuccess = true) :
    j.truthy = true := by
  cases j <;> simp_all [Json.isSuccess, Json.getField, Json.truthy]

/-- The guard-state invariant: the ghost active-cycle counter mirrors the
`fetchInProgress` flag. -/
def syncInv (st : SyncState) : Prop :=
  st.activeCycles = (if st.fetchInProgress then 1 else 0)

theorem syncStep_inv (st : SyncState) (e : SyncEvent) (h : syncInv st) :
    syncInv (syncStep st e) := by
  cases e with
  | invoke =>
    unfold syncStep syncInv at *
    by_cases hf : st.fetchInProgress <;> simp [hf] at h ⊢ <;> omega
  | complete b =>
    unfold syncStep syncInv at *
    by_cases hf : st.fetchInProgress <;> simp [hf] at h ⊢ <;> omega

theorem syncRun_inv (evs : List SyncEvent) : syncInv (syncRun evs) := by
  have hgen : ∀ (l : List SyncEvent) (st : SyncState), syncInv st →
      syncInv (l.foldl syncStep st) := by
    intro l
    induction l with
    | nil => intro st h; exact h
    | cons e t ih => intro st h; exact ih _ (syncStep_inv st e h)
  exact hgen evs _ (by simp [syncInv])

/-! ## Concrete inputs used by witnesses and counterexamples -/

/-- A fully successful set of outcomes for one cycle. -/
def okOutcomes : FetchOutcomes where
  availableStrategiesResp := RawOutcome.ok (Json.obj
    [("success", Json.bool true),
     ("result", Json.obj
       [("built_in", Json.arr [Json.str "ema_strategy"]),
        ("discovered", Json.arr [Json.str "smc_strategy"]),
        ("current_directory", Json.arr [])])])
  healthResp := RawOutcome.ok (Json.obj [("account_balance", Json.num 1000)])
  strategiesStatusResp := RawOutcome.ok (Json.obj
    [("BTCUSD", Json.obj [("running", Json.bool true)])])
  walletResp := RawOutcome.ok (Json.arr [Json.str "USDT"])
  marketResp := fun _ => RawOutcome.ok (Json.obj [("price", Json.num 100)])
  positionsResp := fun _ => RawOutcome.ok (Json.obj [])
  tradesResp := RawOutcome.ok (Json.arr [])
  tradeStatsResp := RawOutcome.ok (Json.obj [])
  systemHealthResp := RawOutcome.ok (Json.obj [("success", Json.bool true)])
  now := 1700000000000

/-- The health body of `okOutcomes`. -/
def okHealthBody : Json := Json.obj [("account_balance", Json.num 1000)]

/-- Outcomes whose health check times out (a mandatory failure). -/
def healthFailOutcomes : FetchOutcomes :=
  { okOutcomes with healthResp := RawOutcome.timedOut }

/-- Outcomes whose status and wallet fetches fail while both mandatory
calls succeed. -/
def statusWalletFailOutcomes : FetchOutcomes :=
  { okOutcomes with
      strategiesStatusResp := RawOutcome.networkFailure "NetworkError",
      walletResp := RawOutcome.timedOut }

/-- A state holding earlier non-empty status and wallet slices. -/
def priorSlicesState : DashboardState :=
  { initialDashboardState with
      strategies := Json.obj
        [("BTCUSD", Json.obj [("running", Json.bool true)])],
      wallet := Json.arr [Json.obj [("asset", Json.str "BTC")]] }

/-- Outcomes in which the ETHUSD market fetch fails with a network error
while the other symbols succeed (the scenario of the specification). -/
def ethFailOutcomes : FetchOutcomes :=
  { okOutcomes with marketResp := fun sym =>
      if sym = "ETHUSD" then RawOutcome.networkFailure "NetworkError"
      else RawOutcome.ok (Json.obj [("price", Json.num 50000)]) }

/-! ## Claims -/

/-- Claim C1: invoking the sync cycle (`fetchData`) while a cycle is
already active is a no-op that returns immediately, without queueing and
without error; the number of concurrently active cycles never exceeds 1;
and the active-cycle flag is cleared when the cycle completes, whether it
succeeds or fails (the `finally` block, modelled by the `complete` event,
clears it for either outcome, and a completed `fetchData` run leaves the
ref cleared). -/
theorem fetchData_nonreentrant :
    (∀ (r : RefState) (o : FetchOutcomes) (s : DashboardState),
      r.fetchInProgress = true → fetchData r o s = (r, s)) ∧
    (∀ evs : List SyncEvent, (syncRun evs).activeCycles ≤ 1) ∧
    (∀ (st : SyncState) (outcome : Bool), st.fetchInProgress = true →
      (syncStep st (SyncEvent.complete outcome)).fetchInProgress = false) ∧
    (∀ (r : RefState) (o : FetchOutcomes) (s : DashboardState),
      r.isMounted = true → r.fetchInProgress = false →
      (fetchData r o s).1.fetchInProgress = false) := by
  refine ⟨?_, ?_, ?_, ?_⟩
  · intro r o s h
    unfold fetchData
    simp [h]
  · intro evs
    have h := syncRun_inv evs
    unfold syncInv at h
    by_cases hf : (syncRun evs).fetchInProgress <;> simp [hf] at h <;> omega
  · intro st outcome h
    unfold syncStep
    simp [h]
  · intro r o s hm hf
    unfold fetchData
    simp [hm, hf]

/-- Witness for C1 at concrete inputs. -/
theorem fetchData_nonreentrant_witness :
    fetchData { isMounted := true, fetchInProgress := true } okOutcomes
        initialDashboardState
      = ({ isMounted := true, fetchInProgress := true },
         initialDashboardState) ∧
    (syncRun [SyncEvent.invoke, SyncEvent.invoke,
        SyncEvent.complete false]).activeCycles ≤ 1 ∧
    (syncStep { fetchInProgress := true, activeCycles := 1 }
        (SyncEvent.complete false)).fetchInProgress = false ∧
    (fetchData { isMounted := true, fetchInProgress := false } okOutcomes
        initialDashboardState).1.fetchInProgress = false :=
  ⟨fetchData_nonreentrant.1 _ okOutcomes _ rfl,
   fetchData_nonreentrant.2.1 _,
   fetchData_nonreentrant.2.2.1 _ false rfl,
   fetchData_nonreentrant.2.2.2 _ okOutcomes _ rfl rfl⟩

/-- Claim C2: an uninterrupted sync cycle aborts (its catch block runs)
exactly when the available-strategy-list fetch fails or the health check
fails; in both abort cases `connectionStatus` ends as `error` and the
retry count is incremented by one.  Because the equivalence is stated for
arbitrary outcomes of every other fetch, a failure of any other fetch
(status, wallet, per-symbol market data, positions, trades, system
health) never makes the cycle abort. -/
theorem syncCycle_aborts_iff_mandatory_fails (o : FetchOutcomes)
    (s : DashboardState) :
    ((fetchDataBody true o s).aborted = true ↔ cycleFails o = true) ∧
    ((fetchDataBody true o s).aborted = true →
      (fetchDataBody true o s).state.connectionStatus = ConnStatus.error ∧
      (fetchDataBody true o s).state.retryCount = s.retryCount + 1) := by
  by_cases hfail : cycleFails o = true
  · rcases cycleFails_true_cases o hfail with hstrat | hh
    · rw [fetchDataBody_stratFail o s hstrat]
      exact ⟨by simp [hfail], fun _ => ⟨rfl, rfl⟩⟩
    · by_cases hstrat : availableStrategiesOk o.availableStrategiesResp = true
      · rw [fetchDataBody_healthFail o s hstrat hh]
        exact ⟨by simp [hfail], fun _ => ⟨rfl, rfl⟩⟩
      · rw [fetchDataBody_stratFail o s (by simpa using hstrat)]
        exact ⟨by simp [hfail], fun _ => ⟨rfl, rfl⟩⟩
  · have hf : cycleFails o = false := by simpa using hfail
    obtain ⟨hstrat, b, hb⟩ := cycleFails_false_cases o hf
    rw [fetchDataBody_success o s b hstrat hb]
    refine ⟨by simp [hf], ?_⟩
    intro habs
    simp at habs

/-- Witness for C2: with a timed-out health check the cycle aborts with
`connectionStatus = error` and an incremented retry count. -/
theorem syncCycle_aborts_iff_mandatory_fails_witness :
    (fetchDataBody true healthFailOutcomes initialDashboardState).state.connectionStatus
        = ConnStatus.error ∧
    (fetchDataBody true healthFailOutcomes initialDashboardState).state.retryCount
        = initialDashboardState.retryCount + 1 :=
  (syncCycle_aborts_iff_mandatory_fails healthFailOutcomes
      initialDashboardState).2
    ((syncCycle_aborts_iff_mandatory_fails healthFailOutcomes
        initialDashboardState).1.mpr rfl)

/-- Claim C3 counterexample: with both mandatory calls succeeding and the
status and wallet fetches failing, the cycle continues but both slices
are overwritten with an empty object, NOT left at their previous
non-empty values as the claim states. -/
theorem statusWallet_slice_not_preserved_counterexample :
    (fetchDataBody true statusWalletFailOutcomes priorSlicesState).aborted
        = false ∧
    (fetchDataBody true statusWalletFailOutcomes
        priorSlicesState).state.strategies = Json.obj [] ∧
    (fetchDataBody true statusWalletFailOutcomes
        priorSlicesState).state.wallet = Json.obj [] ∧
    (fetchDataBody true statusWalletFailOutcomes
        priorSlicesState).state.strategies ≠ priorSlicesState.strategies ∧
    (fetchDataBody true statusWalletFailOutcomes
        priorSlicesState).state.wallet ≠ priorSlicesState.wallet := by
  refine ⟨rfl, rfl, rfl, ?_, ?_⟩
  · intro h
    rw [show (fetchDataBody true statusWalletFailOutcomes
        priorSlicesState).state.strategies = Json.obj [] from rfl] at h
    simp [priorSlicesState] at h
  · intro h
    rw [show (fetchDataBody true statusWalletFailOutcomes
        priorSlicesState).state.wallet = Json.obj [] from rfl] at h
    simp [priorSlicesState, initialDashboardState] at h

/-- Claim C3 amended: for every uninterrupted sync cycle whose mandatory
calls succeed, the two failures act independently: whenever the
all-strategy status fetch fails, the `strategies` slice is overwritten
with an empty object, and whenever the wallet fetch fails, the `wallet`
slice is overwritten with an empty object — in each case the API wrapper
absorbs the failure into an empty object, which `fetchData` then stores,
discarding any previous value — the failure is only logged, and the
cycle continues to completion with `connectionStatus = connected`. -/
theorem statusWallet_failure_empties_slice (o : FetchOutcomes)
    (s : DashboardState) (b : Json)
    (hstrat : availableStrategiesOk o.availableStrategiesResp = true)
    (hh : o.healthResp = RawOutcome.ok b) :
    (fetchDataBody true o s).aborted = false ∧
    (fetchDataBody true o s).state.connectionStatus
      = ConnStatus.connected ∧
    (requestFailed o.strategiesStatusResp = true →
      (fetchDataBody true o s).state.strategies = Json.obj []) ∧
    (requestFailed o.walletResp = true →
      (fetchDataBody true o s).state.wallet = Json.obj []) := by
  rw [fetchDataBody_success o s b hstrat hh]
  exact ⟨rfl, rfl, fun hs => strategiesSlice_failed _ hs,
    fun hw => walletSlice_failed _ hw⟩

/-- Outcomes in which only the status fetch fails. -/
def statusOnlyFailOutcomes : FetchOutcomes :=
  { okOutcomes with
      strategiesStatusResp := RawOutcome.networkFailure "NetworkError" }

/-- Outcomes in which only the wallet fetch fails. -/
def walletOnlyFailOutcomes : FetchOutcomes :=
  { okOutcomes with walletResp := RawOutcome.timedOut }

/-- Witness for the amended C3 at concrete inputs: each of the two
fetches failing alone empties exactly its own slice, over a state whose
prior slices were non-empty. -/
theorem statusWallet_failure_empties_slice_witness :
    (fetchDataBody true statusOnlyFailOutcomes priorSlicesState).state.strategies
        = Json.obj [] ∧
    (fetchDataBody true walletOnlyFailOutcomes priorSlicesState).state.wallet
        = Json.obj [] ∧
    (fetchDataBody true statusOnlyFailOutcomes
        priorSlicesState).state.connectionStatus = ConnStatus.connected ∧
    (fetchDataBody true walletOnlyFailOutcomes
        priorSlicesState).state.connectionStatus = ConnStatus.connected :=
  ⟨(statusWallet_failure_empties_slice statusOnlyFailOutcomes
      priorSlicesState okHealthBody rfl rfl).2.2.1 rfl,
   (statusWallet_failure_empties_slice walletOnlyFailOutcomes
      priorSlicesState okHealthBody rfl rfl).2.2.2 rfl,
   (statusWallet_failure_empties_slice statusOnlyFailOutcomes
      priorSlicesState okHealthBody rfl rfl).2.1,
   (statusWallet_failure_empties_slice walletOnlyFailOutcomes
      priorSlicesState okHealthBody rfl rfl).2.1⟩

/-- Claim C4: within one uninterrupted sync cycle whose mandatory calls
succeed, every tracked symbol whose market-data fetch fails gets an empty
snapshot as its own `marketData` entry, every tracked symbol whose fetch
succeeds with a truthy body keeps its own result, the cycle completes
(`aborted = false`), and `connectionStatus` ends as `connected`. -/
theorem per_symbol_market_failure_isolated (o : FetchOutcomes)
    (s : DashboardState) (b : Json)
    (hstrat : availableStrategiesOk o.availableStrategiesResp = true)
    (hh : o.healthResp = RawOutcome.ok b) :
    (fetchDataBody true o s).aborted = false ∧
    (fetchDataBody true o s).state.connectionStatus
        = ConnStatus.connected ∧
    (∀ sym ∈ TRACKED_SYMBOLS,
      (requestFailed (o.marketResp sym) = true →
        (fetchDataBody true o s).state.marketData.lookup sym
          = some (Json.obj [])) ∧
      (∀ v : Json, o.marketResp sym = RawOutcome.ok v → v.truthy = true →
        (fetchDataBody true o s).state.marketData.lookup sym = some v)) := by
  rw [fetchDataBody_success o s b hstrat hh]
  refine ⟨rfl, rfl, ?_⟩
  intro sym hmem
  constructor
  · intro hfailSym
    show (marketSlice true o.marketResp).lookup sym = some (Json.obj [])
    unfold marketSlice
    rw [lookup_map_self _ _ _ hmem, marketFetchResult_failed _ hfailSym]
  · intro v hv htr
    show (marketSlice true o.marketResp).lookup sym = some v
    unfold marketSlice
    rw [lookup_map_self _ _ _ hmem, hv, marketFetchResult_ok v htr]

/-- Witness for C4, the scenario of the specification: the ETHUSD market
fetch fails with a network error while BTCUSD succeeds; the cycle ends
connected with an empty ETHUSD snapshot and a populated BTCUSD one. -/
theorem per_symbol_market_failure_isolated_witness :
    (fetchDataBody true ethFailOutcomes
        initialDashboardState).state.marketData.lookup "ETHUSD"
      = some (Json.obj []) ∧
    (fetchDataBody true ethFailOutcomes
        initialDashboardState).state.marketData.lookup "BTCUSD"
      = some (Json.obj [("price", Json.num 50000)]) ∧
    (fetchDataBody true ethFailOutcomes
        initialDashboardState).state.connectionStatus
      = ConnStatus.connected :=
  ⟨((per_symbol_market_failure_isolated ethFailOutcomes initialDashboardState
        okHealthBody rfl rfl).2.2 "ETHUSD" (by simp [TRACKED_SYMBOLS])).1 rfl,
   ((per_symbol_market_failure_isolated ethFailOutcomes initialDashboardState
        okHealthBody rfl rfl).2.2 "BTCUSD" (by simp [TRACKED_SYMBOLS])).2
      (Json.obj [("price", Json.num 50000)]) rfl rfl,
   (per_symbol_market_failure_isolated ethFailOutcomes initialDashboardState
        okHealthBody rfl rfl).2.1⟩

/-- A channel that has been logically closed by a symbol switch, and the
ViewModel and late frame used in the C5 counterexample. -/
def wsClosedChannel : WsChannel :=
  { capturedSymbol := "BTCUSD", logicallyClosed := true }

/-- The late frame of the C5 counterexample. -/
def wsLateFrame : Json := Json.obj [("price", Json.num 123)]

/-- The prior market data of the C5 counterexample. -/
def wsPriorMarketData : List (String × Json) :=
  [("BTCUSD", Json.obj [("price", Json.num 100)])]

/-- Claim C5 counterexample: a parseable message delivered on a logically
closed channel is NOT ignored — the `onmessage` handler patches the
captured symbol entry of the ViewModel all the same, because the handler
performs no generation or epoch check of any kind. -/
theorem ws_late_message_mutates_counterexample :
    wsClosedChannel.logicallyClosed = true ∧
    wsOnMessage wsClosedChannel (some wsLateFrame) wsPriorMarketData
      = [("BTCUSD", Json.obj [("price", Json.num 123)])] ∧
    wsOnMessage wsClosedChannel (some wsLateFrame) wsPriorMarketData
      ≠ wsPriorMarketData := by
  refine ⟨rfl, rfl, ?_⟩
  intro h
  rw [show wsOnMessage wsClosedChannel (some wsLateFrame) wsPriorMarketData
      = [("BTCUSD", Json.obj [("price", Json.num 123)])] from rfl] at h
  simp [wsPriorMarketData] at h

/-- Claim C5 amended: the `onmessage` handler processes a message
delivered after the logical closure of its channel exactly as it would a
live one — it consults no generation or epoch token, so its behaviour is
independent of the closure state, a parseable frame always patches the
entry of the symbol captured at channel creation, and only a malformed
frame is dropped.  (Suppression of late messages relies solely on the
runtime ceasing event delivery after `close()`; additionally the
`onclose` handler unconditionally schedules a reconnect of the same
closure after 5000 ms, even when the closure was deliberate.) -/
theorem ws_handler_ignores_closure_state (sym : String)
    (closedA closedB : Bool) (parsed : Option Json)
    (md : List (String × Json)) :
    wsOnMessage { capturedSymbol := sym, logicallyClosed := closedA }
        parsed md
      = wsOnMessage { capturedSymbol := sym, logicallyClosed := closedB }
        parsed md ∧
    wsOnMessage { capturedSymbol := sym, logicallyClosed := closedA }
        none md = md ∧
    wsOnCloseReconnectDelayMs = 5000 :=
  ⟨rfl, rfl, rfl⟩

/-- The channel, frame and ViewModel of the C6 failing input: the
component has been torn down, the channel of the cleanup has been
closed, and a queued frame is delivered afterwards. -/
def wsTeardownChannel : WsChannel :=
  { capturedSymbol := "ETHUSD", logicallyClosed := true }

/-- The post-teardown frame of the C6 failing input. -/
def wsTeardownFrame : Json := Json.obj [("volume", Json.num 7)]

/-- The ViewModel at teardown of the C6 failing input. -/
def wsTeardownMarketData : List (String × Json) :=
  [("ETHUSD", Json.obj [("price", Json.num 2000)])]

/-- Claim C6, evaluated at the failing input: every state write routed
through `safeSetState` is a silent no-op once the liveness flag is
cleared, exactly as the claim says — but the WebSocket `onmessage`
handler writes `marketData` directly, bypassing `safeSetState` and
checking no liveness flag, so a frame delivered after teardown still
mutates the ViewModel. -/
theorem teardown_liveness_guard_bypassed :
    (∀ (w : DashboardState → DashboardState) (s : DashboardState),
      safeSetState false w s = s) ∧
    wsOnMessage wsTeardownChannel (some wsTeardownFrame)
        wsTeardownMarketData
      = [("ETHUSD", Json.obj
          [("price", Json.num 2000), ("volume", Json.num 7)])] ∧
    wsOnMessage wsTeardownChannel (some wsTeardownFrame)
        wsTeardownMarketData ≠ wsTeardownMarketData := by
  refine ⟨fun w s => rfl, rfl, ?_⟩
  intro h
  rw [show wsOnMessage wsTeardownChannel (some wsTeardownFrame)
        wsTeardownMarketData
      = [("ETHUSD", Json.obj
          [("price", Json.num 2000), ("volume", Json.num 7)])] from rfl] at h
  simp [wsTeardownMarketData] at h

/-- Outcomes of a cycle that fails its health check, used by the C7
counterexample and witness. -/
def backoffFailOutcomes : FetchOutcomes :=
  { okOutcomes with healthResp := RawOutcome.networkFailure "NetworkError" }

/-- Claim C7 counterexample: after the first of N consecutive failures
(the k = 0 case of the claim), the delay `handleRetry` schedules is
min(1000·2^1, 10000) = 2000 ms, not min(1000·2^0, 10000) = 1000 ms as
the claim states, because `retryCount` has already been incremented to 1
when the retry is scheduled. -/
theorem retry_backoff_first_delay_counterexample :
    (fetchDataBody true backoffFailOutcomes
        initialDashboardState).state.retryCount = 1 ∧
    handleRetryDelay (fetchDataBody true backoffFailOutcomes
        initialDashboardState).state.retryCount = 2000 ∧
    min (1000 * 2 ^ 0) 10000 = 1000 ∧
    (2000 : Nat) ≠ 1000 := by
  exact ⟨rfl, rfl, rfl, by omega⟩

/-- Claim C7 amended: `retryCount` is incremented by exactly one on each
cycle failure and reset to 0 on each successful cycle completion, and
therefore the delay scheduled before the k-th re-attempt of a run of N
consecutive failures (k = 0 .. N−1, starting from a fresh state) is
min(1000·2^(k+1), 10000) milliseconds — the exponent is k+1, one more
than the claim stated, because the count is incremented before the retry
is scheduled. -/
theorem retry_backoff_shifted (o : FetchOutcomes) (s : DashboardState)
    (hfail : cycleFails o = true) :
    ((fetchDataBody true o s).state.retryCount = s.retryCount + 1) ∧
    (∀ n : Nat, (iterateCycles o n s).retryCount = s.retryCount + n) ∧
    (∀ k : Nat, s.retryCount = 0 →
      handleRetryDelay (iterateCycles o (k + 1) s).retryCount
        = min (1000 * 2 ^ (k + 1)) 10000) ∧
    (∀ (o2 : FetchOutcomes) (s2 : DashboardState), cycleFails o2 = false →
      (fetchDataBody true o2 s2).state.retryCount = 0) := by
  have hstep : ∀ st : DashboardState,
      (fetchDataBody true o st).state.retryCount = st.retryCount + 1 := by
    intro st
    rcases cycleFails_true_cases o hfail with hstrat | hh
    · rw [fetchDataBody_stratFail o st hstrat]
    · by_cases hstrat : availableStrategiesOk o.availableStrategiesResp = true
      · rw [fetchDataBody_healthFail o st hstrat hh]
      · rw [fetchDataBody_stratFail o st (by simpa using hstrat)]
  have hiter : ∀ (n : Nat) (st : DashboardState),
      (iterateCycles o n st).retryCount = st.retryCount + n := by
    intro n
    induction n with
    | zero => intro st; simp [iterateCycles]
    | succ k ih =>
      intro st
      show (iterateCycles o k (fetchDataBody true o st).state).retryCount = _
      rw [ih ((fetchDataBody true o st).state), hstep st]
      omega
  refine ⟨hstep s, fun n => hiter n s, ?_, ?_⟩
  · intro k h0
    rw [hiter (k + 1) s, h0]
    simp [handleRetryDelay]
  · intro o2 s2 hok
    obtain ⟨hstrat2, b, hb⟩ := cycleFails_false_cases o2 hok
    rw [fetchDataBody_success o2 s2 b hstrat2 hb]

/-- Witness for the amended C7: one failed cycle from the fresh state
yields `retryCount = 1` and a scheduled delay of min(1000·2^1, 10000). -/
theorem retry_backoff_shifted_witness :
    (iterateCycles backoffFailOutcomes 1 initialDashboardState).retryCount
        = initialDashboardState.retryCount + 1 ∧
    handleRetryDelay (iterateCycles backoffFailOutcomes 1
        initialDashboardState).retryCount = min (1000 * 2 ^ 1) 10000 ∧
    (fetchDataBody true okOutcomes priorSlicesState).state.retryCount = 0 :=
  ⟨(retry_backoff_shifted backoffFailOutcomes initialDashboardState
      rfl).2.1 1,
   (retry_backoff_shifted backoffFailOutcomes initialDashboardState
      rfl).2.2.1 0 rfl,
   (retry_backoff_shifted backoffFailOutcomes initialDashboardState
      rfl).2.2.2 okOutcomes priorSlicesState rfl⟩

theorem mergeAlerts_id_nodup (prev newAlerts : List Alert) (t : Nat)
    (hprev : (prev.map Alert.id).Nodup)
    (hnew : (newAlerts.map Alert.id).Nodup) :
    ((mergeAlerts prev newAlerts t).map Alert.id).Nodup := by
  unfold mergeAlerts
  have hbase : ((prev ++ newAlerts.filter (fun a =>
      !((prev.map (fun x => x.id)).contains a.id))).map Alert.id).Nodup := by
    rw [List.map_append, List.nodup_append]
    refine ⟨hprev, ?_, ?_⟩
    · exact hnew.sublist (List.Sublist.map _ (List.filter_sublist _))
    · intro x hx hx'
      obtain ⟨a, ha, hxa⟩ := List.mem_map.mp hx'
      have hcond := (List.mem_filter.mp ha).2
      simp only [Bool.not_eq_true'] at hcond
      rw [List.contains_eq_any_beq] at hcond
      have hany : (prev.map (fun y => y.id)).any (fun y => a.id == y) = true :=
        List.any_eq_true.mpr ⟨x, hx, by simp [hxa]⟩
      rw [hany] at hcond
      cases hcond
  have hfil : (((prev ++ newAlerts.filter (fun a =>
        !((prev.map (fun x => x.id)).contains a.id))).filter
      (fun a => t - dayMs < a.timestamp)).map Alert.id).Nodup :=
    hbase.sublist (List.Sublist.map _ (List.filter_sublist _))
  have hperm := List.mergeSort_perm
    ((prev ++ newAlerts.filter (fun a =>
        !((prev.map (fun x => x.id)).contains a.id))).filter
      (fun a => t - dayMs < a.timestamp))
    (fun a b => b.timestamp ≤ a.timestamp)
  exact ((hperm.map Alert.id).nodup_iff).mpr hfil

theorem mergeAlerts_sorted (prev newAlerts : List Alert) (t : Nat) :
    (mergeAlerts prev newAlerts t).Pairwise
      (fun a b => b.timestamp ≤ a.timestamp) := by
  unfold mergeAlerts
  refine List.Pairwise.imp (fun h => of_decide_eq_true h)
    (List.sorted_mergeSort ?_ ?_ _)
  · intro a b c hab hbc
    exact decide_eq_true (Nat.le_trans (of_decide_eq_true hbc)
      (of_decide_eq_true hab))
  · intro a b
    simp only [Bool.or_eq_true, decide_eq_true_eq]
    exact Nat.le_total b.timestamp a.timestamp

theorem mergeAlerts_recent (prev newAlerts : List Alert) (t : Nat) :
    ∀ a ∈ mergeAlerts prev newAlerts t, t - dayMs < a.timestamp := by
  intro a ha
  unfold mergeAlerts at ha
  rw [List.mem_mergeSort] at ha
  have hc := (List.mem_filter.mp ha).2
  simpa using hc

/-- Claim C8: after every merge of the Alert Deriver (over any strategy
and position inputs whose generated alerts carry pairwise distinct ids,
and any previous list with pairwise distinct ids), the resulting list has
pairwise distinct ids, is sorted by timestamp descending, and contains no
alert older than 24 hours; and running the derivation twice in a row on
the unchanged inputs still yields pairwise distinct ids — no duplicate is
ever added. -/
theorem alert_merge_invariants (strategies : List (String × StrategyStatus))
    (positions : List Position) (prev : List Alert) (t : Nat)
    (hprev : (prev.map Alert.id).Nodup)
    (hgen : ((generateAlerts strategies positions t).map Alert.id).Nodup) :
    ((deriveAlerts strategies positions prev t).map Alert.id).Nodup ∧
    (deriveAlerts strategies positions prev t).Pairwise
      (fun a b => b.timestamp ≤ a.timestamp) ∧
    (∀ a ∈ deriveAlerts strategies positions prev t,
      t - dayMs < a.timestamp) ∧
    ((deriveAlerts strategies positions
        (deriveAlerts strategies positions prev t) t).map Alert.id).Nodup := by
  have h1 := mergeAlerts_id_nodup prev (generateAlerts strategies positions t)
    t hprev hgen
  refine ⟨h1, mergeAlerts_sorted _ _ _, mergeAlerts_recent _ _ _, ?_⟩
  exact mergeAlerts_id_nodup _ (generateAlerts strategies positions t) t h1
    hgen

/-- The strategy-status input of the C8 witness. -/
def witnessStrategies : List (String × StrategyStatus) :=
  [("BTCUSD", { running := true, error := some "stale feed", start_time := none })]

/-- The position input of the C8 witness (the scenario of the
specification: margin 100, unrealized profit 60). -/
def witnessPositions : List Position :=
  [{ symbol := "ETHUSD", unrealized_pnl := 60, margin := 100 }]

/-- Witness for C8 at concrete inputs. -/
theorem alert_merge_invariants_witness :
    ((deriveAlerts witnessStrategies witnessPositions [] 200000000).map
        Alert.id).Nodup ∧
    (∀ a ∈ deriveAlerts witnessStrategies witnessPositions [] 200000000,
      200000000 - dayMs < a.timestamp) :=
  ⟨(alert_merge_invariants witnessStrategies witnessPositions [] 200000000
      (by simp) (by decide)).1,
   (alert_merge_invariants witnessStrategies witnessPositions [] 200000000
      (by simp) (by decide)).2.2.1⟩

/-- Claim C9: for every invocation of `handleStartStrategy` (and
symmetrically `handleStopStrategy`) on a mounted component: when the
backend response has `success = true`, a `fetchData` sync cycle is
scheduled after a fixed 1000 ms delay (and the alerts counter is
bumped); when the call fails with a thrown error, the returned value is
a synthetic failure object carrying the error message for the UI and no
sync cycle is scheduled; when the response reports `success = false`, no
sync cycle is scheduled either.  The handlers schedule nothing else, so
no automatic retry occurs. -/
theorem strategy_control_refresh_schedule :
    (∀ j : Json, j.isSuccess = true →
      handleStartStrategy true (RawOutcome.ok j)
        = { returned := j, refreshDelayMs := some 1000,
            alertsCountDelta := 1 } ∧
      handleStopStrategy true (RawOutcome.ok j)
        = { returned := j, refreshDelayMs := some 1000,
            alertsCountDelta := 1 }) ∧
    (∀ (raw : RawOutcome) (m : String),
      APIService.request raw = Except.error m →
      handleStartStrategy true raw
        = { returned := Json.obj [("success", Json.bool false),
              ("message", Json.str m)],
            refreshDelayMs := none, alertsCountDelta := 0 } ∧
      handleStopStrategy true raw
        = { returned := Json.obj [("success", Json.bool false),
              ("message", Json.str m)],
            refreshDelayMs := none, alertsCountDelta := 0 }) ∧
    (∀ j : Json, j.isSuccess = false →
      (handleStartStrategy true (RawOutcome.ok j)).refreshDelayMs = none ∧
      (handleStopStrategy true (RawOutcome.ok j)).refreshDelayMs = none) := by
  refine ⟨?_, ?_, ?_⟩
  · intro j hj
    have htr := truthy_of_isSuccess j hj
    constructor
    · unfold handleStartStrategy APIService.startStrategy APIService.request
      simp [hj, htr, jsOr]
    · unfold handleStopStrategy APIService.stopStrategy APIService.request
      simp [hj, htr, jsOr]
  · intro raw m hm
    constructor
    · unfold handleStartStrategy APIService.startStrategy
      rw [hm]
    · unfold handleStopStrategy APIService.stopStrategy
      rw [hm]
  · intro j hj
    constructor
    · unfold handleStartStrategy APIService.startStrategy APIService.request
      simp [hj]
    · unfold handleStopStrategy APIService.stopStrategy APIService.request
      simp [hj]

/-- Witness for C9 at concrete inputs: a successful start schedules a
1000 ms refresh; a network failure surfaces its message and schedules
nothing. -/
theorem strategy_control_refresh_schedule_witness :
    handleStartStrategy true
        (RawOutcome.ok (Json.obj [("success", Json.bool true)]))
      = { returned := Json.obj [("success", Json.bool true)],
          refreshDelayMs := some 1000, alertsCountDelta := 1 } ∧
    handleStartStrategy true (RawOutcome.networkFailure "Failed to fetch")
      = { returned := Json.obj [("success", Json.bool false),
            ("message", Json.str "Failed to fetch")],
          refreshDelayMs := none, alertsCountDelta := 0 } ∧
    (handleStopStrategy true
        (RawOutcome.ok (Json.obj [("success", Json.bool false)]))).refreshDelayMs
      = none :=
  ⟨(strategy_control_refresh_schedule.1
      (Json.obj [("success", Json.bool true)]) rfl).1,
   (strategy_control_refresh_schedule.2.1
      (RawOutcome.networkFailure "Failed to fetch") "Failed to fetch" rfl).1,
   (strategy_control_refresh_schedule.2.2
      (Json.obj [("success", Json.bool false)]) rfl).2⟩

/-- Claim C10: the API wrapper methods `getAllStrategiesStatus`,
`getWallet`, `getMarketData`, `getPositions`, `getTrades`,
`getTradeStats` and `getSystemHealth` never propagate a failure to their
caller: whatever the underlying request outcome, they return `ok`, and on
any underlying failure (timeout, non-2xx, network) they return their
fixed fallback value, which is indistinguishable from a successful
response carrying that same value; while `getAvailableStrategies`,
`getHealth`, `startStrategy`, `stopStrategy` and `getCandles` are exactly
`request` and propagate its errors. -/
theorem api_wrappers_absorb_failures :
    (∀ raw : RawOutcome, requestFailed raw = true →
      APIService.getAllStrategiesStatus raw = Except.ok (Json.obj []) ∧
      APIService.getWallet raw = Except.ok (Json.obj []) ∧
      APIService.getMarketData raw = Except.ok (Json.obj []) ∧
      APIService.getPositions raw = Except.ok (Json.obj []) ∧
      APIService.getTrades raw = Except.ok (Json.arr []) ∧
      APIService.getTradeStats raw = Except.ok (Json.obj []) ∧
      APIService.getSystemHealth raw
        = Except.ok APIService.systemHealthFallback) ∧
    (∀ raw : RawOutcome,
      (∃ v, APIService.getAllStrategiesStatus raw = Except.ok v) ∧
      (∃ v, APIService.getWallet raw = Except.ok v) ∧
      (∃ v, APIService.getMarketData raw = Except.ok v) ∧
      (∃ v, APIService.getPositions raw = Except.ok v) ∧
      (∃ v, APIService.getTrades raw = Except.ok v) ∧
      (∃ v, APIService.getTradeStats raw = Except.ok v) ∧
      (∃ v, APIService.getSystemHealth raw = Except.ok v)) ∧
    (∀ raw : RawOutcome, requestFailed raw = true →
      APIService.getAllStrategiesStatus raw
        = APIService.getAllStrategiesStatus (RawOutcome.ok (Json.obj [])) ∧
      APIService.getWallet raw
        = APIService.getWallet (RawOutcome.ok (Json.obj [])) ∧
      APIService.getMarketData raw
        = APIService.getMarketData (RawOutcome.ok (Json.obj [])) ∧
      APIService.getPositions raw
        = APIService.getPositions (RawOutcome.ok (Json.obj [])) ∧
      APIService.getTrades raw
        = APIService.getTrades (RawOutcome.ok (Json.arr [])) ∧
      APIService.getTradeStats raw
        = APIService.getTradeStats (RawOutcome.ok (Json.obj [])) ∧
      APIService.getSystemHealth raw
        = APIService.getSystemHealth
            (RawOutcome.ok APIService.systemHealthFallback)) ∧
    (∀ raw : RawOutcome,
      APIService.getAvailableStrategies raw = APIService.request raw ∧
      APIService.getHealth raw = APIService.request raw ∧
      APIService.startStrategy raw = APIService.request raw ∧
      APIService.stopStrategy raw = APIService.request raw ∧
      APIService.getCandles raw = APIService.request raw) := by
  refine ⟨?_, ?_, ?_, ?_⟩
  · intro raw h
    cases raw with
    | ok b => simp [requestFailed, APIService.request] at h
    | httpFailure st b => exact ⟨rfl, rfl, rfl, rfl, rfl, rfl, rfl⟩
    | networkFailure m => exact ⟨rfl, rfl, rfl, rfl, rfl, rfl, rfl⟩
    | timedOut => exact ⟨rfl, rfl, rfl, rfl, rfl, rfl, rfl⟩
  · intro raw
    cases raw <;>
      exact ⟨⟨_, rfl⟩, ⟨_, rfl⟩, ⟨_, rfl⟩, ⟨_, rfl⟩, ⟨_, rfl⟩, ⟨_, rfl⟩,
        ⟨_, rfl⟩⟩
  · intro raw h
    cases raw with
    | ok b => simp [requestFailed, APIService.request] at h
    | httpFailure st b => exact ⟨rfl, rfl, rfl, rfl, rfl, rfl, rfl⟩
    | networkFailure m => exact ⟨rfl, rfl, rfl, rfl, rfl, rfl, rfl⟩
    | timedOut => exact ⟨rfl, rfl, rfl, rfl, rfl, rfl, rfl⟩
  · intro raw
    exact ⟨rfl, rfl, rfl, rfl, rfl⟩

/-- Witness for C10 at the timeout outcome. -/
theorem api_wrappers_absorb_failures_witness :
    APIService.getAllStrategiesStatus RawOutcome.timedOut
      = Except.ok (Json.obj []) ∧
    APIService.getTrades RawOutcome.timedOut = Except.ok (Json.arr []) ∧
    APIService.getSystemHealth RawOutcome.timedOut
      = Except.ok APIService.systemHealthFallback ∧
    APIService.getSystemHealth RawOutcome.timedOut
      = APIService.getSystemHealth
          (RawOutcome.ok APIService.systemHealthFallback) :=
  ⟨(api_wrappers_absorb_failures.1 RawOutcome.timedOut rfl).1,
   (api_wrappers_absorb_failures.1 RawOutcome.timedOut rfl).2.2.2.2.1,
   (api_wrappers_absorb_failures.1 RawOutcome.timedOut rfl).2.2.2.2.2.2,
   (api_wrappers_absorb_failures.2.2.1 RawOutcome.timedOut rfl).2.2.2.2.2.2⟩
